import Mathlib

/-!
Verification of the WarThunderRPC telemetry-to-presence status engine.

This file gives a shallow embedding of the decision logic of the repository
(files wtrpc.py and warthunder_rpc_gui.py, whose engine cores are line-for-line
identical) and proves or refutes the specification claims about it.

Modelling conventions:
* Python strings are Lean `String` (a list of characters in this toolchain);
  the Python methods lower/strip/title/replace/split and the substring operator
  are re-implemented character by character over ASCII, matching CPython on the
  ASCII inputs this program manipulates.
* Python dicts are association lists with single-binding-per-key semantics
  (`dictGet` / `dictSet`); dict truthiness is non-emptiness.
* JSON values appearing in the mission endpoint are the inductive `JVal`
  (string, bool, null), with Python truthiness `jTruthy`.
* Network effects are parameters of each tick: the outcome of every fetch and
  of the wiki scrape is an input, so a tick is a pure function from the
  environment's responses and the engine state to the next state plus the
  outbound payload decision.
* The global mutable state of the monitor loop (vehicle cache, LAST_VEHICLE_ID,
  GLOBAL_MAP_HASHES, start_time, last_* published fields) is the explicit
  `EngineState` record threaded through `tick`.
-/

namespace WTRPC

/-! ### Character primitives (ASCII fragment of CPython string methods) -/

/-- ASCII lower-casing of a character, as CPython str.lower does on ASCII. -/
def pyCharLower (c : Char) : Char :=
  if h : 65 ≤ c.toNat ∧ c.toNat ≤ 90 then
    Char.ofNatAux (c.toNat + 32) (Or.inl (by omega))
  else c

/-- ASCII upper-casing of a character. -/
def pyCharUpper (c : Char) : Char :=
  if h : 97 ≤ c.toNat ∧ c.toNat ≤ 122 then
    Char.ofNatAux (c.toNat - 32) (Or.inl (by omega))
  else c

/-- Decidable test for an ASCII upper-case letter. -/
def isAsciiUpper (c : Char) : Bool := decide (65 ≤ c.toNat ∧ c.toNat ≤ 90)

/-- Decidable test for an ASCII letter (the cased characters of this program). -/
def isAsciiAlpha (c : Char) : Bool :=
  decide ((65 ≤ c.toNat ∧ c.toNat ≤ 90) ∨ (97 ≤ c.toNat ∧ c.toNat ≤ 122))

/-- Whitespace characters stripped by CPython str.strip(). -/
def isPySpace (c : Char) : Bool :=
  c = ' ' || c = '\t' || c = '\n' || c = '\r' || c = '\x0b' || c = '\x0c'

theorem pyCharLower_toNat (c : Char) (h : 65 ≤ c.toNat ∧ c.toNat ≤ 90) :
    (pyCharLower c).toNat = c.toNat + 32 := by
  unfold pyCharLower
  rw [dif_pos h]
  simp [Char.ofNatAux, Char.toNat, UInt32.toNat]

theorem pyCharLower_not_upper (c : Char) : isAsciiUpper (pyCharLower c) = false := by
  unfold isAsciiUpper
  by_cases h : 65 ≤ c.toNat ∧ c.toNat ≤ 90
  · have := pyCharLower_toNat c h
    simp only [decide_eq_false_iff_not]
    omega
  · unfold pyCharLower
    rw [dif_neg h]
    simp only [decide_eq_false_iff_not]
    omega

/-! ### String primitives -/

/-- CPython str.lower() on ASCII text. -/
def pyLower (s : String) : String := ⟨s.data.map pyCharLower⟩

/-- The list-level part of CPython str.strip(). -/
def stripList (l : List Char) : List Char :=
  ((l.dropWhile isPySpace).reverse.dropWhile isPySpace).reverse

/-- CPython str.strip(). -/
def pyStrip (s : String) : String := ⟨stripList s.data⟩

/-- CPython str.replace(old, new) where old is a single character, which covers
every replace call in the sources. -/
def pyReplace (old : Char) (new : String) (s : String) : String :=
  ⟨s.data.flatMap (fun c => if c = old then new.data else [c])⟩

/-- Helper for pyTitle: the Boolean records whether the previous character was
a cased (here: ASCII alphabetic) character. -/
def titleMap : Bool → List Char → List Char
  | _, [] => []
  | prevAlpha, c :: rest =>
    (if isAsciiAlpha c then (if prevAlpha then pyCharLower c else pyCharUpper c) else c)
      :: titleMap (isAsciiAlpha c) rest

/-- CPython str.title() on ASCII text: the first letter of every run of letters
is upper-cased, the following letters are lower-cased. -/
def pyTitle (s : String) : String := ⟨titleMap false s.data⟩

/-- CPython slicing s[:n]. -/
def pyTake (n : Nat) (s : String) : String := ⟨s.data.take n⟩

/-- Does the needle match at the head of the haystack? -/
def leadMatch : List Char → List Char → Bool
  | [], _ => true
  | _ :: _, [] => false
  | a :: as, b :: bs => a = b && leadMatch as bs

/-- List-level substring containment. -/
def listSub (needle : List Char) : List Char → Bool
  | [] => needle.isEmpty
  | c :: rest => leadMatch needle (c :: rest) || listSub needle rest

/-- The CPython operator `needle in hay` on strings. -/
def hasSub (needle hay : String) : Bool := listSub needle.data hay.data

/-- CPython str.startswith(p). -/
def pyStarts (p s : String) : Bool := leadMatch p.data s.data

/-- CPython str.split(sep) for a one-character separator; always non-empty. -/
def pySplit (sep : Char) : List Char → List (List Char)
  | [] => [[]]
  | c :: rest =>
    match pySplit sep rest with
    | [] => [[]]
    | s :: ss => if c = sep then [] :: s :: ss else (c :: s) :: ss

/-- The last element of CPython s.split(sep), i.e. s.split(sep)[-1]. -/
def pySplitLast (sep : Char) (s : String) : String :=
  ⟨(pySplit sep s.data).getLastD []⟩

/-! ### Python dict model -/

/-- Lookup in a Python dict modelled as an association list (first binding wins,
and dicts built by the engine never hold duplicate keys). -/
def dictGet {α : Type} : List (String × α) → String → Option α
  | [], _ => none
  | (k, v) :: rest, key => if k = key then some v else dictGet rest key

/-- CPython d[key] = v: replace the binding if present, else append it. -/
def dictSet {α : Type} : List (String × α) → String → α → List (String × α)
  | [], key, v => [(key, v)]
  | (k, w) :: rest, key, v =>
    if k = key then (k, v) :: rest else (k, w) :: dictSet rest key v

/-- Number of bindings of a key in the table (a well-formed dict has at most one). -/
def countKey {α : Type} : List (String × α) → String → Nat
  | [], _ => 0
  | (k, _) :: rest, key => (if k = key then 1 else 0) + countKey rest key

/-- Python truthiness of an optional dict/list: None and the empty dict are falsy. -/
def truthyOptList {α : Type} : Option (List α) → Bool
  | none => false
  | some d => !d.isEmpty

/-- Python truthiness of an optional string: None and the empty string are falsy. -/
def truthyOptStr : Option String → Bool
  | none => false
  | some s => decide (s ≠ "")

/-- CPython comparison a != b where a is a string and b is str-or-None. -/
def neqOpt (a : String) : Option String → Bool
  | none => true
  | some b => decide (a ≠ b)

/-- JSON values observed in the mission endpoint of the local telemetry API. -/
inductive JVal where
  | jstr (v : String)
  | jbool (v : Bool)
  | jnull
deriving DecidableEq

/-- Python truthiness of a JSON value. -/
def jTruthy : JVal → Bool
  | .jstr s => decide (s ≠ "")
  | .jbool b => b
  | .jnull => false

/-- Python truthiness of an optional JSON value (None is falsy). -/
def jTruthyOpt : Option JVal → Bool
  | none => false
  | some v => jTruthy v

/-- String content of a JSON value; the mission type field is a string whenever
present, which is the only place this is used. -/
def jStrVal : Option JVal → String
  | some (.jstr s) => s
  | _ => ""

/-- A JSON dict whose exercised values are strings (the state and indicators
endpoints: only the name and type fields are read, both strings). -/
abbrev StrDict := List (String × String)

/-- A JSON dict with mixed values (the mission endpoint). -/
abbrev MDict := List (String × JVal)

/-! ### Constants of the sources -/

def WAR_THUNDER_API_URL : String := "http://127.0.0.1:8111"

def VEHICLE_IMAGE_BASE_URL : String := "https://static.encyclopedia.warthunder.com/images/"

def GITHUB_RAW_BASE_URL : String :=
  "https://raw.githubusercontent.com/ajaniceman/WarThunderRPC/main/mapPictures/"

def MAP_IMAGE_EXTENSION : String := ".jpg"

/-- The well-known SHA256 fingerprint of the menu/hangar background image,
hard-coded in the map display logic of both monitor loops. -/
def HANGAR_HASH : String :=
  "cfb99c04947c94c19d4c523c1e0fb3a2d71d403263fefcad5f4c4fc8485d07d0"

/-- VEHICLE_DISPLAY_MAP: the manual override table; empty in the sources (its
only entry is commented out). -/
def VEHICLE_DISPLAY_MAP : StrDict := []

/-- The placeholder label used when auto-registering an unknown map hash. -/
def placeholder_name : String := "unknown_map"

/-- placeholder_name.lower().replace(' ', '_') from the auto-add block. -/
def clean_placeholder_name : String := pyReplace ' ' "_" (pyLower placeholder_name)

/-- The deterministic placeholder URL minted for an unknown map fingerprint. -/
def auto_generated_url : String :=
  GITHUB_RAW_BASE_URL ++ clean_placeholder_name ++ MAP_IMAGE_EXTENSION

/-! ### get_data (the fetch helper) -/

/-- ENDPOINTS: the three telemetry endpoints keyed by name. -/
def ENDPOINTS (name : String) : Option String :=
  if name = "state" then some (WAR_THUNDER_API_URL ++ "/state")
  else if name = "indicators" then some (WAR_THUNDER_API_URL ++ "/indicators")
  else if name = "mission" then some (WAR_THUNDER_API_URL ++ "/mission.json")
  else none

/-- Every way a telemetry fetch can end. The non-success constructors cover the
exception tuple of the source: Timeout, ConnectionError, HTTPError (non-2xx),
JSONDecodeError, and the catch-all Exception clause. -/
inductive FetchOutcome (α : Type) where
  | success (body : α)
  | timeout
  | connectionError
  | httpError
  | malformedJson
  | otherException
deriving DecidableEq

/-- get_data: fetch JSON from a named endpoint. Totality of this function is
the never-raises guarantee: every failure constructor is mapped to none, so no
exception propagates to the polling loop. -/
def get_data {α : Type} (endpoint_name : String) (outcome : FetchOutcome α) : Option α :=
  match ENDPOINTS endpoint_name with
  | none => none
  | some _ =>
    match outcome with
    | .success body => some body
    | _ => none

/-! ### Map identification -/

/-- lookup_map_name: look the fingerprint up in the (merged) hash table, with
the table passed explicitly instead of the GLOBAL_MAP_HASHES global. -/
def lookup_map_name (table : StrDict) (sha256_hash : Option String) : String :=
  if truthyOptStr sha256_hash then
    let h := sha256_hash.getD ""
    match dictGet table h with
    | some map_value =>
      if map_value ≠ "" then map_value else "Unknown Map (Needs Update)"
    | none => "Unknown Map (Hash: " ++ pyTake 8 h ++ "...)"
  else "Not in Mission"

/-- is_url from the sources. -/
def is_url (s : String) : Bool := pyStarts "http://" s || pyStarts "https://" s

/-! ### Vehicle identity -/

/-- Field access on an optional dict (None has no fields). -/
def optDictGet : Option StrDict → String → Option String
  | none, _ => none
  | some d, k => dictGet d k

/-- The raw-id selection at the head of get_raw_vehicle_id: the state endpoint's
name field wins (the Python test is state_data and 'name' in state_data); the
indicators type field is the elif fallback. -/
def selectRawId (state_data indicators_data : Option StrDict) : Option String :=
  if truthyOptList state_data && (optDictGet state_data "name").isSome then
    optDictGet state_data "name"
  else if truthyOptList indicators_data && (optDictGet indicators_data "type").isSome then
    optDictGet indicators_data "type"
  else none

/-- get_raw_vehicle_id: returns (canonical_id, unfiltered_raw_id). -/
def get_raw_vehicle_id (state_data indicators_data : Option StrDict) : String × String :=
  match selectRawId state_data indicators_data with
  | none => ("unknown_vehicle", "unknown_vehicle")
  | some raw_id =>
    if raw_id = "" ∨ raw_id = "unknown_vehicle" ∨ raw_id = "Unknown Vehicle" then
      ("unknown_vehicle", "unknown_vehicle")
    else
      let unfiltered_raw_id := pyStrip (pyLower raw_id)
      let canonical_id :=
        if hasSub "/" unfiltered_raw_id then pySplitLast '/' unfiltered_raw_id
        else unfiltered_raw_id
      (canonical_id, unfiltered_raw_id)

/-- get_default_display_name: synthetic fallback display name from the raw id. -/
def get_default_display_name (raw_id : String) : String :=
  if raw_id = "unknown_vehicle" then "Unknown Vehicle"
  else pyStrip (pyTitle (pyReplace '_' " " raw_id))

/-! ### Mission flags (duplicated verbatim in get_status_message and the loop) -/

/-- mission_data and mission_data.get('status') == 'running'. -/
def is_status_running_of (mission_data : Option MDict) : Bool :=
  match mission_data with
  | none => false
  | some md => !md.isEmpty && decide (dictGet md "status" = some (JVal.jstr "running"))

/-- mission_data and (is_enabled or (valid and type != 'mission')). -/
def is_mission_enabled_or_valid_of (mission_data : Option MDict) : Bool :=
  match mission_data with
  | none => false
  | some md =>
    !md.isEmpty &&
      (jTruthy ((dictGet md "is_enabled").getD (JVal.jbool false)) ||
        (jTruthy ((dictGet md "valid").getD (JVal.jbool false)) &&
          decide ((dictGet md "type").getD (JVal.jstr "mission") ≠ JVal.jstr "mission")))

/-- is_in_mission = is_status_running or is_mission_enabled_or_valid. -/
def is_in_mission_of (mission_data : Option MDict) : Bool :=
  is_status_running_of mission_data || is_mission_enabled_or_valid_of mission_data

/-! ### get_status_message (the pure status classifier) -/

/-- Field access on an optional mission dict (None has no fields). -/
def optMGet : Option MDict → String → Option JVal
  | none, _ => none
  | some md, k => dictGet md k

/-- get_status_message: maps the tick's telemetry plus resolved metadata to the
(details, state) pair, i.e. the headline and subline of the presence status. -/
def get_status_message (state_data : Option StrDict) (mission_data : Option MDict)
    (detected_vehicle : String) (map_name : String) (unfiltered_raw_id : String) :
    String × String :=
  if !truthyOptList state_data then ("Offline", "Waiting for game...")
  else
    let vehicle_display :=
      if detected_vehicle ≠ "Unknown Vehicle" then detected_vehicle else "Vehicle"
    if map_name = "Hangar" then
      if detected_vehicle ≠ "Unknown Vehicle" then
        ("Idle in Hangar", "Inspecting " ++ vehicle_display)
      else ("In Main Menu/Hangar", "Waiting for vehicle selection")
    else if is_in_mission_of mission_data then
      let mtr0 : Option JVal := optMGet mission_data "type"
      let mission_type_raw : String :=
        if !jTruthyOpt mtr0 || decide (mtr0 = some (JVal.jstr "mission")) then
          if decide (unfiltered_raw_id ≠ "") && hasSub "tankmodels/" unfiltered_raw_id then
            "ground_battle"
          else if decide (unfiltered_raw_id ≠ "") &&
              (hasSub "shipmodels/" unfiltered_raw_id || hasSub "boat/" unfiltered_raw_id) then
            "naval_battle"
          else if unfiltered_raw_id ≠ "unknown_vehicle" then "air_battle"
          else "Custom Battle"
        else jStrVal mtr0
      let action_text :=
        if hasSub "tankmodels/" unfiltered_raw_id then "Driving a " ++ detected_vehicle
        else if hasSub "shipmodels/" unfiltered_raw_id || hasSub "boat/" unfiltered_raw_id then
          "Commanding the " ++ detected_vehicle
        else "Piloting the " ++ detected_vehicle
      if hasSub "ground_battle" mission_type_raw || hasSub "ground_match" mission_type_raw then
        ("In Ground Battle on " ++ map_name, action_text)
      else if hasSub "air_battle" mission_type_raw || hasSub "air_match" mission_type_raw then
        ("In Air Battle on " ++ map_name, action_text)
      else if hasSub "naval_battle" mission_type_raw then
        ("In Naval Battle on " ++ map_name, action_text)
      else if hasSub "Custom Battle" mission_type_raw then
        ("In Custom Battle on " ++ map_name, action_text)
      else
        ("In Battle: " ++ pyTitle (pyReplace '_' " " mission_type_raw), "Map: " ++ map_name)
    else if detected_vehicle ≠ "Unknown Vehicle" then
      ("Idle in Hangar", "Inspecting " ++ vehicle_display)
    else ("In Main Menu/Hangar", "Waiting for vehicle selection")

/-! ### URL/path helpers for the map display name -/

/-- The suffix after the first occurrence of the needle, empty if absent. -/
def afterSub (needle : List Char) : List Char → List Char
  | [] => []
  | c :: rest =>
    if leadMatch needle (c :: rest) then (c :: rest).drop needle.length
    else afterSub needle rest

/-- urlparse(u).path for the http(s) URLs this program builds: drop the scheme
and authority, keep the path up to a query or fragment. -/
def pyUrlParsePath (u : String) : String :=
  ⟨((afterSub ("://".data) u.data).dropWhile (fun c => decide (c ≠ '/'))).takeWhile
    (fun c => decide (c ≠ '?') && decide (c ≠ '#'))⟩

/-- os.path.basename: the part after the last '/'. -/
def osPathBaseName (p : String) : String := ⟨(pySplit '/' p.data).getLastD []⟩

/-- The root of os.path.splitext: the name with its last extension removed, for
plain file names (a basename consisting only of leading dots is kept whole). -/
def splitExtRoot (s : String) : String :=
  let l := s.data
  let revAfter := l.reverse.takeWhile (fun c => decide (c ≠ '.'))
  if revAfter.length = l.length then s
  else
    let pre := l.take (l.length - revAfter.length - 1)
    if pre.all (fun c => c = '.') then s else ⟨pre⟩

/-! ### The per-tick pipeline of the monitor loop -/

/-- The environment's responses for one tick: the three endpoint bodies (None
when get_data absorbed a failure), the map image hash (None when the fetch
failed or the body was empty), the wiki scrape outcome used if a scrape is
attempted this tick, and the wall clock in integer seconds. -/
structure TickInput where
  state_data : Option StrDict
  indicators_data : Option StrDict
  mission_data : Option MDict
  map_hash : Option String
  scrape_result : Option String × Option String
  clock : Nat
deriving DecidableEq

/-- The engine's mutable state: the module-level caches and the loop-local
last-published trackers of monitor_war_thunder / RPCMonitor.run. -/
structure EngineState where
  cache : List (String × String × String)
  last_vehicle_id : Option String
  map_hashes : StrDict
  start_time : Nat
  last_details : String
  last_state : String
  last_vehicle_display : String
  last_image_url : String
  last_br : String
  last_map_name : String
deriving DecidableEq

/-- Outcome of the vehicle name/BR resolution block of a tick. -/
structure ResolveResult where
  name : String
  br : String
  scraped : Bool
  cache : List (String × String × String)
deriving DecidableEq

/-- The vehicle resolution block (steps 2 of the loop): cache-first, then the
scrape attempt guarded by the condition
raw_vehicle_id != LAST_VEHICLE_ID or raw_vehicle_id not in VEHICLE_NAME_CACHE,
embedded exactly as written. A successful scrape (truthy scraped name) is
inserted into the cache; a failed one leaves the fallback name and "N/A". -/
def resolveVehicle (cache : List (String × String × String))
    (last_vehicle_id : Option String) (raw_vehicle_id : String)
    (default_name : String) (scrape_result : Option String × Option String) :
    ResolveResult :=
  if raw_vehicle_id ≠ "unknown_vehicle" then
    match dictGet cache raw_vehicle_id with
    | some nb => ⟨nb.1, nb.2, false, cache⟩
    | none =>
      if neqOpt raw_vehicle_id last_vehicle_id ||
          (dictGet cache raw_vehicle_id).isNone then
        if truthyOptStr scrape_result.1 then
          let dv := scrape_result.1.getD ""
          let db := if truthyOptStr scrape_result.2 then scrape_result.2.getD "" else "N/A"
          ⟨dv, db, true, dictSet cache raw_vehicle_id (dv, db)⟩
        else ⟨default_name, "N/A", true, cache⟩
      else ⟨default_name, "N/A", false, cache⟩
  else ⟨default_name, "N/A", false, cache⟩

/-- Outcome of the map detection block of a tick. -/
structure MapStageResult where
  value : String
  table : StrDict
  registered : Bool
deriving DecidableEq

/-- The map detection block (step 3 of the loop): look the hash up, and
auto-register an absent hash under the deterministic placeholder URL. -/
def mapStage : StrDict → Option String → MapStageResult
  | table, none => ⟨"Not in Mission", table, false⟩
  | table, some h =>
    if h ≠ "" then
      let v := lookup_map_name table (some h)
      if (dictGet table h).isNone then
        ⟨auto_generated_url, dictSet table h auto_generated_url, true⟩
      else ⟨v, table, false⟩
    else ⟨"Not in Mission", table, false⟩

/-- Outcome of the map display-name block of a tick. -/
structure MapDisplayResult where
  display : String
  asset : String
deriving DecidableEq

/-- The map display block (step 5 of the loop): derive the display name and the
RPC asset key or URL from the configured map value; the Hangar special case
keys on the well-known fingerprint inside the diagnostic branch. -/
def mapDisplay (current_map_value : String) (sha256_hash : Option String) :
    MapDisplayResult :=
  if is_url current_map_value then
    let filename := splitExtRoot (osPathBaseName (pyUrlParsePath current_map_value))
    let d := pyTitle (pyReplace '_' " " filename)
    ⟨if d = "Unknown Map" then "Unknown Map (Upload Pending)" else d, current_map_value⟩
  else if current_map_value = "Unknown Map (Needs Update)" ∨
      current_map_value = "Unknown Map (Just Added)" ∨
      current_map_value = "Not in Mission" then
    if decide (current_map_value = "Not in Mission") && truthyOptStr sha256_hash &&
        hasSub HANGAR_HASH (sha256_hash.getD "") then
      ⟨"Hangar", current_map_value⟩
    else ⟨current_map_value, current_map_value⟩
  else
    ⟨pyTitle (pyReplace '_' " " current_map_value),
      pyReplace ')' "" (pyReplace '(' ""
        (pyReplace '-' "_" (pyReplace ' ' "_" (pyLower current_map_value))))⟩

/-- Every value a tick derives before the publish decision (the locals of one
loop iteration, steps 2 through 9). -/
structure TickComputation where
  raw_vehicle_id : String
  unfiltered_raw_id : String
  detected_vehicle : String
  detected_br : String
  scraped : Bool
  cache : List (String × String × String)
  map_hashes : StrDict
  map_registered : Bool
  current_map_value : String
  map_name_display : String
  map_asset_key_or_url : String
  is_in_mission : Bool
  current_image_url : String
  details : String
  state : String
  large_image_key : String
  large_image_text : String
  small_image_key : Option String
  small_image_text : Option String
  start_time : Nat
deriving DecidableEq

/-- One iteration of the monitor loop up to the payload, with every network
outcome supplied in the input. -/
def computeTick (i : TickInput) (s : EngineState) : TickComputation :=
  let rv := get_raw_vehicle_id i.state_data i.indicators_data
  let detected0 := get_default_display_name rv.1
  let res := resolveVehicle s.cache s.last_vehicle_id rv.1 detected0 i.scrape_result
  let detected_vehicle :=
    match dictGet VEHICLE_DISPLAY_MAP rv.1 with
    | some n => n
    | none => res.name
  let ms := mapStage s.map_hashes i.map_hash
  let md := mapDisplay ms.value i.map_hash
  let in_mission := is_in_mission_of i.mission_data
  let current_image_url :=
    if rv.1 ≠ "unknown_vehicle" then VEHICLE_IMAGE_BASE_URL ++ rv.1 ++ ".png" else ""
  let ds := get_status_message i.state_data i.mission_data detected_vehicle md.display rv.2
  let br_tooltip := if res.br ≠ "N/A" then " BR: " ++ res.br else ""
  let tooltip_text := detected_vehicle ++ br_tooltip
  let img :=
    if in_mission then
      let is_clean_asset_key := !is_url md.asset &&
        decide (md.asset ∉ ([ "unknown_map_(needs_update)", "unknown_map_(just_added)",
          "unknown_map", "not_in_mission", "hangar"] : List String))
      let lk_lt :=
        if is_url md.asset then
          (md.asset,
            if md.display ≠ "Unknown Map (Upload Pending)" then md.display
            else "Uploading Map Image")
        else if is_clean_asset_key then (md.asset, md.display)
        else ("war_thunder_logo", "In Battle")
      if current_image_url ≠ "" then
        (lk_lt.1, lk_lt.2, some current_image_url, some tooltip_text)
      else (lk_lt.1, lk_lt.2, (none : Option String), (none : Option String))
    else if current_image_url ≠ "" then
      ("war_thunder_logo", "War Thunder", some current_image_url, (none : Option String))
    else ("war_thunder_logo", "War Thunder", (none : Option String), (none : Option String))
  let small_text :=
    if truthyOptStr img.2.2.1 && !truthyOptStr img.2.2.2 then some tooltip_text
    else img.2.2.2
  let start_time' := if md.display = "Hangar" then i.clock else s.start_time
  { raw_vehicle_id := rv.1
    unfiltered_raw_id := rv.2
    detected_vehicle := detected_vehicle
    detected_br := res.br
    scraped := res.scraped
    cache := res.cache
    map_hashes := ms.table
    map_registered := ms.registered
    current_map_value := ms.value
    map_name_display := md.display
    map_asset_key_or_url := md.asset
    is_in_mission := in_mission
    current_image_url := current_image_url
    details := ds.1
    state := ds.2
    large_image_key := img.1
    large_image_text := img.2.1
    small_image_key := img.2.2.1
    small_image_text := small_text
    start_time := start_time' }

/-- The structured payload handed to the presence sink (rpc_payload); the small
image pair is present only when the small image key is truthy. -/
structure Payload where
  details : String
  state : String
  start : Nat
  large_image : String
  large_text : String
  small_image : Option String
  small_text : Option String
deriving DecidableEq

/-- rpc_payload as built in step 9 of the loop. -/
def payloadOf (c : TickComputation) : Payload :=
  if truthyOptStr c.small_image_key then
    { details := c.details, state := c.state, start := c.start_time,
      large_image := c.large_image_key, large_text := c.large_image_text,
      small_image := c.small_image_key, small_text := c.small_image_text }
  else
    { details := c.details, state := c.state, start := c.start_time,
      large_image := c.large_image_key, large_text := c.large_image_text,
      small_image := none, small_text := none }

/-- The publish decision of step 11, exactly as written in the sources: note
that the slot for the small image key in the remembered tuple is the CURRENT
small image key (the sources never store a last small key), and that neither
the start epoch nor the image texts take part in the comparison. -/
def publishGate (c : TickComputation) (s : EngineState) : Bool :=
  decide ((c.details, c.state, c.detected_vehicle, c.large_image_key,
      c.small_image_key, c.detected_br, c.map_name_display) ≠
    (s.last_details, s.last_state, s.last_vehicle_display, s.last_image_url,
      c.small_image_key, s.last_br, s.last_map_name))

/-- Observable outcome of one tick. -/
structure TickResult where
  st : EngineState
  computed : Payload
  published : Bool
  scraped : Bool
  map_registered : Bool
  map_value : String
  vehicle_display : String
  br : String
  map_display : String
deriving DecidableEq

/-- One full tick: compute, decide whether to publish, and update the engine
state (the last_* trackers move only on a publish; the caches, the map table,
LAST_VEHICLE_ID and start_time move unconditionally). -/
def tick (i : TickInput) (s : EngineState) : TickResult :=
  let c := computeTick i s
  let pub := publishGate c s
  { st :=
      { cache := c.cache
        last_vehicle_id := some c.raw_vehicle_id
        map_hashes := c.map_hashes
        start_time := c.start_time
        last_details := if pub then c.details else s.last_details
        last_state := if pub then c.state else s.last_state
        last_vehicle_display := if pub then c.detected_vehicle else s.last_vehicle_display
        last_image_url := if pub then c.large_image_key else s.last_image_url
        last_br := if pub then c.detected_br else s.last_br
        last_map_name := if pub then c.map_name_display else s.last_map_name }
    computed := payloadOf c
    published := pub
    scraped := c.scraped
    map_registered := c.map_registered
    map_value := c.current_map_value
    vehicle_display := c.detected_vehicle
    br := c.detected_br
    map_display := c.map_name_display }

/-- Run a sequence of ticks, keeping only the engine state. -/
def runTicks (inputs : List TickInput) (s : EngineState) : EngineState :=
  match inputs with
  | [] => s
  | i :: rest => runTicks rest (tick i s).st

/-! ### Dictionary lemmas -/

theorem dictGet_some_ne_nil {α : Type} {d : List (String × α)} {k : String} {v : α}
    (h : dictGet d k = some v) : d ≠ [] := by
  intro he
  rw [he] at h
  exact Option.noConfusion h

theorem dictGet_dictSet_self {α : Type} (d : List (String × α)) (k : String) (v : α) :
    dictGet (dictSet d k v) k = some v := by
  induction d with
  | nil => simp [dictSet, dictGet]
  | cons p rest ih =>
    obtain ⟨pk, pv⟩ := p
    by_cases h : pk = k
    · simp [dictSet, dictGet, h]
    · simp [dictSet, dictGet, h, ih]

theorem dictGet_dictSet_ne {α : Type} (d : List (String × α)) (k k' : String) (v : α)
    (h : k' ≠ k) : dictGet (dictSet d k v) k' = dictGet d k' := by
  induction d with
  | nil =>
    simp [dictSet, dictGet]
    intro he
    exact absurd he.symm h
  | cons p rest ih =>
    obtain ⟨pk, pv⟩ := p
    by_cases hk : pk = k
    · subst hk
      have : pk ≠ k' := fun he => h (he ▸ rfl)
      simp [dictSet, dictGet, this]
    · by_cases hk' : pk = k'
      · simp [dictSet, dictGet, hk, hk', h]
      · simp [dictSet, dictGet, hk, hk', ih]

theorem countKey_zero_of_dictGet_none {α : Type} {d : List (String × α)} {k : String}
    (h : dictGet d k = none) : countKey d k = 0 := by
  induction d with
  | nil => rfl
  | cons p rest ih =>
    obtain ⟨pk, pv⟩ := p
    by_cases hk : pk = k
    · rw [dictGet, if_pos hk] at h
      exact Option.noConfusion h
    · rw [dictGet, if_neg hk] at h
      rw [countKey, if_neg hk, ih h]

theorem countKey_dictSet_new {α : Type} {d : List (String × α)} {k : String} (v : α)
    (h : dictGet d k = none) : countKey (dictSet d k v) k = countKey d k + 1 := by
  induction d with
  | nil => simp [dictSet, countKey]
  | cons p rest ih =>
    obtain ⟨pk, pv⟩ := p
    by_cases hk : pk = k
    · rw [dictGet, if_pos hk] at h
      exact Option.noConfusion h
    · rw [dictGet, if_neg hk] at h
      rw [dictSet, if_neg hk, countKey, if_neg hk, countKey, if_neg hk, ih h]
      omega

theorem countKey_dictSet_ne {α : Type} (d : List (String × α)) (k k' : String) (v : α)
    (h : k' ≠ k) : countKey (dictSet d k v) k' = countKey d k' := by
  induction d with
  | nil =>
    simp [dictSet, countKey]
    intro he
    exact absurd he.symm h
  | cons p rest ih =>
    obtain ⟨pk, pv⟩ := p
    by_cases hk : pk = k
    · subst hk
      have hne : pk ≠ k' := fun he => h (he ▸ rfl)
      simp [dictSet, countKey, hne]
    · rw [dictSet, if_neg hk, countKey, countKey, ih]

/-! ### Split and substring lemmas -/

theorem pySplit_ne_nil (sep : Char) (l : List Char) : pySplit sep l ≠ [] := by
  cases l with
  | nil => simp [pySplit]
  | cons c rest =>
    rw [pySplit]
    cases pySplit sep rest with
    | nil => simp
    | cons s ss =>
      by_cases h : c = sep <;> simp [h]

theorem getLastD_cons_cons {α : Type} (a b : α) (l : List α) (d : α) :
    (a :: b :: l).getLastD d = (b :: l).getLastD d := rfl

theorem mem_pySplit_getLastD {sep : Char} {l : List Char} {x : Char}
    (h : x ∈ (pySplit sep l).getLastD []) : x ∈ l ∧ x ≠ sep := by
  induction l with
  | nil => simp [pySplit] at h
  | cons c rest ih =>
    cases hs : pySplit sep rest with
    | nil => exact absurd hs (pySplit_ne_nil sep rest)
    | cons s ss =>
      have hred : pySplit sep (c :: rest) =
          if c = sep then [] :: s :: ss else (c :: s) :: ss := by
        rw [pySplit, hs]
      rw [hred] at h
      by_cases hc : c = sep
      · rw [if_pos hc, getLastD_cons_cons, ← hs] at h
        obtain ⟨h1, h2⟩ := ih h
        exact ⟨List.mem_cons_of_mem c h1, h2⟩
      · rw [if_neg hc] at h
        cases ss with
        | nil =>
          have h1 : ((c :: s) :: ([] : List (List Char))).getLastD [] = c :: s := rfl
          rw [h1] at h
          rcases List.mem_cons.mp h with he | hm
          · subst he
            exact ⟨List.mem_cons_self x rest, hc⟩
          · have hm' : x ∈ (pySplit sep rest).getLastD [] := by
              rw [hs]
              exact hm
            obtain ⟨h1, h2⟩ := ih hm'
            exact ⟨List.mem_cons_of_mem c h1, h2⟩
        | cons t ts =>
          rw [getLastD_cons_cons] at h
          have hm' : x ∈ (pySplit sep rest).getLastD [] := by
            rw [hs, getLastD_cons_cons]
            exact h
          obtain ⟨h1, h2⟩ := ih hm'
          exact ⟨List.mem_cons_of_mem c h1, h2⟩

theorem pySplit_of_no_sep {sep : Char} {l : List Char} (h : ∀ x ∈ l, x ≠ sep) :
    pySplit sep l = [l] := by
  induction l with
  | nil => rfl
  | cons c rest ih =>
    have hr : pySplit sep rest = [rest] := ih (fun x hx => h x (List.mem_cons_of_mem c hx))
    rw [pySplit, hr]
    simp [h c (List.mem_cons_self c rest)]

theorem listSub_singleton_iff {c : Char} {l : List Char} :
    listSub [c] l = true ↔ c ∈ l := by
  induction l with
  | nil => simp [listSub, List.isEmpty]
  | cons x rest ih =>
    have hlm : leadMatch [c] (x :: rest) = (decide (c = x) && true) := rfl
    rw [listSub, hlm, Bool.and_true, Bool.or_eq_true, decide_eq_true_eq, ih, List.mem_cons]

theorem listSub_nil_hay {needle : List Char} (h : needle ≠ []) :
    listSub needle [] = false := by
  rw [listSub]
  simpa [List.isEmpty_iff] using h

/-! ### Strip and lower membership lemmas -/

theorem mem_of_mem_stripList {x : Char} {l : List Char} (h : x ∈ stripList l) : x ∈ l := by
  unfold stripList at h
  rw [List.mem_reverse] at h
  have h1 := (List.dropWhile_sublist (l := (l.dropWhile isPySpace).reverse) isPySpace).subset h
  rw [List.mem_reverse] at h1
  exact (List.dropWhile_sublist isPySpace).subset h1

theorem mem_pyLower_not_upper {x : Char} {s : String} (h : x ∈ (pyLower s).data) :
    isAsciiUpper x = false := by
  unfold pyLower at h
  simp only [List.mem_map] at h
  obtain ⟨y, _, hy⟩ := h
  rw [← hy]
  exact pyCharLower_not_upper y

/-! ### Projection equations of a tick (all definitional) -/

/-- The canonical vehicle id a tick observes. -/
def observedId (i : TickInput) : String :=
  (get_raw_vehicle_id i.state_data i.indicators_data).1

theorem tick_scraped_eq (i : TickInput) (s : EngineState) :
    (tick i s).scraped =
      (resolveVehicle s.cache s.last_vehicle_id (observedId i)
        (get_default_display_name (observedId i)) i.scrape_result).scraped := rfl

theorem tick_st_cache_eq (i : TickInput) (s : EngineState) :
    (tick i s).st.cache =
      (resolveVehicle s.cache s.last_vehicle_id (observedId i)
        (get_default_display_name (observedId i)) i.scrape_result).cache := rfl

theorem tick_vehicle_display_eq (i : TickInput) (s : EngineState) :
    (tick i s).vehicle_display =
      (resolveVehicle s.cache s.last_vehicle_id (observedId i)
        (get_default_display_name (observedId i)) i.scrape_result).name := rfl

theorem tick_br_eq (i : TickInput) (s : EngineState) :
    (tick i s).br =
      (resolveVehicle s.cache s.last_vehicle_id (observedId i)
        (get_default_display_name (observedId i)) i.scrape_result).br := rfl

theorem tick_st_map_hashes_eq (i : TickInput) (s : EngineState) :
    (tick i s).st.map_hashes = (mapStage s.map_hashes i.map_hash).table := rfl

theorem tick_map_registered_eq (i : TickInput) (s : EngineState) :
    (tick i s).map_registered = (mapStage s.map_hashes i.map_hash).registered := rfl

theorem tick_map_value_eq (i : TickInput) (s : EngineState) :
    (tick i s).map_value = (mapStage s.map_hashes i.map_hash).value := rfl

theorem tick_map_display_eq (i : TickInput) (s : EngineState) :
    (tick i s).map_display =
      (mapDisplay (mapStage s.map_hashes i.map_hash).value i.map_hash).display := rfl

theorem tick_st_start_eq (i : TickInput) (s : EngineState) :
    (tick i s).st.start_time =
      (if (mapDisplay (mapStage s.map_hashes i.map_hash).value i.map_hash).display =
          "Hangar" then i.clock else s.start_time) := rfl

theorem tick_published_eq (i : TickInput) (s : EngineState) :
    (tick i s).published = publishGate (computeTick i s) s := rfl

theorem tick_computed_eq (i : TickInput) (s : EngineState) :
    (tick i s).computed = payloadOf (computeTick i s) := rfl

theorem tick_vd_comp_eq (i : TickInput) (s : EngineState) :
    (tick i s).vehicle_display = (computeTick i s).detected_vehicle := rfl

theorem tick_br_comp_eq (i : TickInput) (s : EngineState) :
    (tick i s).br = (computeTick i s).detected_br := rfl

theorem tick_md_comp_eq (i : TickInput) (s : EngineState) :
    (tick i s).map_display = (computeTick i s).map_name_display := rfl

theorem payloadOf_details (c : TickComputation) : (payloadOf c).details = c.details := by
  by_cases h : truthyOptStr c.small_image_key = true <;> simp [payloadOf, h]

theorem payloadOf_state (c : TickComputation) : (payloadOf c).state = c.state := by
  by_cases h : truthyOptStr c.small_image_key = true <;> simp [payloadOf, h]

theorem payloadOf_large (c : TickComputation) :
    (payloadOf c).large_image = c.large_image_key := by
  by_cases h : truthyOptStr c.small_image_key = true <;> simp [payloadOf, h]

/-! ### Resolution-block lemmas -/

theorem resolveVehicle_cached (cache : List (String × String × String))
    (last : Option String) (rid d : String) (sc : Option String × Option String)
    (nb : String × String) (hrid : rid ≠ "unknown_vehicle")
    (hc : dictGet cache rid = some nb) :
    resolveVehicle cache last rid d sc = ⟨nb.1, nb.2, false, cache⟩ := by
  unfold resolveVehicle
  rw [if_pos hrid, hc]

theorem resolveVehicle_cache_preserve (cache : List (String × String × String))
    (last : Option String) (rid d : String) (sc : Option String × Option String)
    (k : String) (v : String × String) (hk : dictGet cache k = some v) :
    dictGet (resolveVehicle cache last rid d sc).cache k = some v := by
  unfold resolveVehicle
  split
  · split
    · exact hk
    · rename_i h1 h2
      have hne : rid ≠ k := by
        intro he
        rw [he, hk] at h2
        exact Option.noConfusion h2
      split
      · split
        · simp only
          rw [dictGet_dictSet_ne _ _ _ _ (fun he => hne he.symm)]
          exact hk
        · exact hk
      · exact hk
  · exact hk

/-! ### Map-stage lemmas -/

theorem mapStage_absent (table : StrDict) (h : String) (hne : h ≠ "")
    (habs : dictGet table h = none) :
    mapStage table (some h) =
      ⟨auto_generated_url, dictSet table h auto_generated_url, true⟩ := by
  simp only [mapStage]
  rw [if_pos hne]
  simp only [habs, Option.isNone_none, if_pos]

theorem mapStage_present (table : StrDict) (h : String) (v : String) (hne : h ≠ "")
    (hv : dictGet table h = some v) :
    mapStage table (some h) =
      ⟨if v ≠ "" then v else "Unknown Map (Needs Update)", table, false⟩ := by
  simp only [mapStage]
  rw [if_pos hne]
  simp only [hv, Option.isNone_some, Bool.false_eq_true, if_false]
  simp [lookup_map_name, truthyOptStr, hne, hv]

theorem mapStage_table_preserve (table : StrDict) (sha : Option String)
    (k : String) (v : String) (hk : dictGet table k = some v) :
    dictGet (mapStage table sha).table k = some v := by
  cases sha with
  | none => exact hk
  | some h =>
    simp only [mapStage]
    by_cases hne : h ≠ ""
    · rw [if_pos hne]
      cases h2 : dictGet table h with
      | some w => simp only [h2, Option.isNone_some, Bool.false_eq_true, if_false]; exact hk
      | none =>
        have hkh : k ≠ h := by
          intro he
          rw [← he, hk] at h2
          exact Option.noConfusion h2
        simp only [h2, Option.isNone_none, if_pos]
        rw [dictGet_dictSet_ne _ _ _ _ hkh]
        exact hk
    · rw [if_neg hne]
      exact hk

theorem mapStage_countKey_preserve (table : StrDict) (sha : Option String)
    (k : String) (v : String) (hk : dictGet table k = some v) :
    countKey (mapStage table sha).table k = countKey table k := by
  cases sha with
  | none => rfl
  | some h =>
    simp only [mapStage]
    by_cases hne : h ≠ ""
    · rw [if_pos hne]
      cases h2 : dictGet table h with
      | some w => simp only [h2, Option.isNone_some, Bool.false_eq_true, if_false]
      | none =>
        have hkh : k ≠ h := by
          intro he
          rw [← he, hk] at h2
          exact Option.noConfusion h2
        simp only [h2, Option.isNone_none, if_pos]
        exact countKey_dictSet_ne _ _ _ _ hkh
    · rw [if_neg hne]

/-! ### State-preservation across ticks -/

theorem tick_cache_preserve (i : TickInput) (s : EngineState) (k : String)
    (v : String × String) (hk : dictGet s.cache k = some v) :
    dictGet (tick i s).st.cache k = some v := by
  rw [tick_st_cache_eq]
  exact resolveVehicle_cache_preserve _ _ _ _ _ _ _ hk

theorem runTicks_cache_preserve (inputs : List TickInput) (s : EngineState) (k : String)
    (v : String × String) (hk : dictGet s.cache k = some v) :
    dictGet (runTicks inputs s).cache k = some v := by
  induction inputs generalizing s with
  | nil => exact hk
  | cons i rest ih => exact ih _ (tick_cache_preserve i s k v hk)

theorem tick_maps_preserve (i : TickInput) (s : EngineState) (k : String) (v : String)
    (hk : dictGet s.map_hashes k = some v) :
    dictGet (tick i s).st.map_hashes k = some v ∧
      countKey (tick i s).st.map_hashes k = countKey s.map_hashes k := by
  rw [tick_st_map_hashes_eq]
  exact ⟨mapStage_table_preserve _ _ _ _ hk, mapStage_countKey_preserve _ _ _ _ hk⟩

theorem runTicks_maps_preserve (inputs : List TickInput) (s : EngineState) (k : String)
    (v : String) (hk : dictGet s.map_hashes k = some v) :
    dictGet (runTicks inputs s).map_hashes k = some v ∧
      countKey (runTicks inputs s).map_hashes k = countKey s.map_hashes k := by
  induction inputs generalizing s with
  | nil => exact ⟨hk, rfl⟩
  | cons i rest ih =>
    obtain ⟨h1, h2⟩ := tick_maps_preserve i s k v hk
    obtain ⟨h3, h4⟩ := ih _ h1
    exact ⟨h3, h4.trans h2⟩

/-! ### selectRawId helper lemmas -/

theorem truthy_some_of_ne_nil {α : Type} {d : List α} (h : d ≠ []) :
    truthyOptList (some d) = true := by
  cases d with
  | nil => exact absurd rfl h
  | cons a l => rfl

theorem selectRawId_state (sd : StrDict) (ind : Option StrDict) (v : String)
    (h1 : dictGet sd "name" = some v) : selectRawId (some sd) ind = some v := by
  have hsd : sd ≠ [] := dictGet_some_ne_nil h1
  have hcond : (truthyOptList (some sd) && (optDictGet (some sd) "name").isSome) = true := by
    simp only [optDictGet, h1, Option.isSome_some, Bool.and_true]
    exact truthy_some_of_ne_nil hsd
  unfold selectRawId
  rw [if_pos hcond]
  simp only [optDictGet]
  exact h1

theorem selectRawId_state_absent (sd0 : Option StrDict) (d2 : StrDict) (w : String)
    (h0 : ∀ d0, sd0 = some d0 → dictGet d0 "name" = none)
    (h2 : dictGet d2 "type" = some w) : selectRawId sd0 (some d2) = some w := by
  have hd2 : d2 ≠ [] := dictGet_some_ne_nil h2
  have hcond2 : (truthyOptList (some d2) && (optDictGet (some d2) "type").isSome) = true := by
    simp only [optDictGet, h2, Option.isSome_some, Bool.and_true]
    exact truthy_some_of_ne_nil hd2
  have hcond1 : (truthyOptList sd0 && (optDictGet sd0 "name").isSome) = false := by
    cases sd0 with
    | none => rfl
    | some d0 =>
      have hd0 := h0 d0 rfl
      simp only [optDictGet, hd0, Option.isSome_none, Bool.and_false]
  unfold selectRawId
  rw [if_neg (by simp [hcond1]), if_pos hcond2]
  simp only [optDictGet]
  exact h2

/-! ## Claim theorems -/

/-- C7: for every input where the state telemetry is absent (state data None),
get_status_message returns the headline Offline with the waiting-for-game
subline, regardless of the mission data, resolved vehicle, or map value. -/
theorem C7_offline_when_no_state (mission_data : Option MDict)
    (detected_vehicle map_name unfiltered_raw_id : String) :
    get_status_message none mission_data detected_vehicle map_name unfiltered_raw_id =
      ("Offline", "Waiting for game...") := rfl

/-- C9: for every telemetry endpoint fetch and every failure mode (timeout,
connection refused, non-2xx status, malformed JSON, or any other exception),
get_data returns none for that source and never raises to its caller (the
embedding is a total function into Option, with every non-success outcome
mapped to none). -/
theorem C9_fetch_failure_absorbed {α : Type} (endpoint_name : String)
    (outcome : FetchOutcome α) (hfail : ∀ b : α, outcome ≠ FetchOutcome.success b) :
    get_data endpoint_name outcome = none := by
  unfold get_data
  cases h : ENDPOINTS endpoint_name with
  | none => rfl
  | some u =>
    cases outcome with
    | success b => exact absurd rfl (hfail b)
    | timeout => rfl
    | connectionError => rfl
    | httpError => rfl
    | malformedJson => rfl
    | otherException => rfl

/-- Witness for C9 at a concrete failing fetch of the state endpoint. -/
theorem C9_fetch_failure_absorbed_witness :
    (∀ b : MDict, (FetchOutcome.timeout : FetchOutcome MDict) ≠ FetchOutcome.success b) ∧
      get_data "state" (FetchOutcome.timeout : FetchOutcome MDict) = none :=
  ⟨fun _ h => FetchOutcome.noConfusion h,
    C9_fetch_failure_absorbed "state" FetchOutcome.timeout
      (fun _ h => FetchOutcome.noConfusion h)⟩

/-- C10: when both telemetry sources report a vehicle id (the state endpoint
has a name field and the indicators endpoint has a type field), the state
endpoint's name always wins, for every indicators value; the indicators value
is consulted exactly when the state data is absent or lacks the name key. -/
theorem C10_state_name_precedence (sd d2 : StrDict) (ind : Option StrDict)
    (v w : String) (h1 : dictGet sd "name" = some v)
    (h2 : dictGet d2 "type" = some w) :
    selectRawId (some sd) ind = some v ∧
    selectRawId (some sd) (some d2) = some v ∧
    (∀ sd0 : Option StrDict, (∀ d0, sd0 = some d0 → dictGet d0 "name" = none) →
      selectRawId sd0 (some d2) = some w) :=
  ⟨selectRawId_state sd ind v h1, selectRawId_state sd (some d2) v h1,
    fun sd0 h0 => selectRawId_state_absent sd0 d2 w h0 h2⟩

/-- Witness for C10 at concrete state and indicators dicts. -/
theorem C10_state_name_precedence_witness :
    dictGet [( "name", "air_models/f_16a")] "name" = some "air_models/f_16a" ∧
    dictGet [( "type", "p_51d")] "type" = some "p_51d" ∧
    selectRawId (some [( "name", "air_models/f_16a")]) (some [( "type", "p_51d")]) =
      some "air_models/f_16a" :=
  ⟨by decide, by decide,
    (C10_state_name_precedence [( "name", "air_models/f_16a")] [( "type", "p_51d")]
      (some [( "type", "p_51d")]) "air_models/f_16a" "p_51d"
      (by decide) (by decide)).2.1⟩

/-- C8: for every raw vehicle id extracted from telemetry (other than the
unknown-vehicle sentinel), the canonical id returned by get_raw_vehicle_id is
the last slash-delimited segment of the lower-cased, whitespace-stripped
unfiltered id; in particular it is lower-case, contains no slash, and is a
deterministic function of the unfiltered id (it is computed by a function of
it). -/
theorem C8_canonical_id_derivation (sd ind : Option StrDict) (raw_id : String)
    (hsel : selectRawId sd ind = some raw_id)
    (hne : (get_raw_vehicle_id sd ind).1 ≠ "unknown_vehicle") :
    (get_raw_vehicle_id sd ind).2 = pyStrip (pyLower raw_id) ∧
    (get_raw_vehicle_id sd ind).1 = pySplitLast '/' (pyStrip (pyLower raw_id)) ∧
    (∀ ch ∈ ((get_raw_vehicle_id sd ind).1).data, ch ≠ '/') ∧
    (∀ ch ∈ ((get_raw_vehicle_id sd ind).1).data, isAsciiUpper ch = false) := by
  have hx : get_raw_vehicle_id sd ind =
      (if raw_id = "" ∨ raw_id = "unknown_vehicle" ∨ raw_id = "Unknown Vehicle" then
        ("unknown_vehicle", "unknown_vehicle")
      else
        let unfiltered_raw_id := pyStrip (pyLower raw_id)
        let canonical_id :=
          if hasSub "/" unfiltered_raw_id then pySplitLast '/' unfiltered_raw_id
          else unfiltered_raw_id
        (canonical_id, unfiltered_raw_id)) := by
    unfold get_raw_vehicle_id
    rw [hsel]
  by_cases hcond : raw_id = "" ∨ raw_id = "unknown_vehicle" ∨ raw_id = "Unknown Vehicle"
  · rw [hx, if_pos hcond] at hne
    exact absurd rfl hne
  · have h2 : (get_raw_vehicle_id sd ind).2 = pyStrip (pyLower raw_id) := by
      rw [hx, if_neg hcond]
    have h1 : (get_raw_vehicle_id sd ind).1 =
        (if hasSub "/" (pyStrip (pyLower raw_id)) then
          pySplitLast '/' (pyStrip (pyLower raw_id))
        else pyStrip (pyLower raw_id)) := by
      rw [hx, if_neg hcond]
    have humem : ∀ ch ∈ (pyStrip (pyLower raw_id)).data, isAsciiUpper ch = false := by
      intro ch hch
      exact mem_pyLower_not_upper (mem_of_mem_stripList hch)
    by_cases hsub : hasSub "/" (pyStrip (pyLower raw_id)) = true
    · rw [if_pos hsub] at h1
      refine ⟨h2, h1, ?_, ?_⟩
      · intro ch hch
        rw [h1] at hch
        exact (mem_pySplit_getLastD hch).2
      · intro ch hch
        rw [h1] at hch
        exact humem ch (mem_pySplit_getLastD hch).1
    · rw [if_neg hsub] at h1
      have hnosep : ∀ x ∈ (pyStrip (pyLower raw_id)).data, x ≠ '/' := by
        intro x hxmem hxeq
        apply hsub
        rw [show hasSub "/" (pyStrip (pyLower raw_id)) =
          listSub ['/'] (pyStrip (pyLower raw_id)).data from rfl, listSub_singleton_iff]
        rw [← hxeq]
        exact hxmem
      have hsplit : pySplitLast '/' (pyStrip (pyLower raw_id)) = pyStrip (pyLower raw_id) := by
        unfold pySplitLast
        rw [pySplit_of_no_sep hnosep]
        rfl
      refine ⟨h2, h1.trans hsplit.symm, ?_, ?_⟩
      · intro ch hch
        rw [h1] at hch
        exact hnosep ch hch
      · intro ch hch
        rw [h1] at hch
        exact humem ch hch

/-- Witness for C8 at a concrete state dict carrying a prefixed vehicle id. -/
theorem C8_canonical_id_derivation_witness :
    selectRawId (some [( "name", "tankmodels/T_34_1942 ")]) none =
      some "tankmodels/T_34_1942 " ∧
    (get_raw_vehicle_id (some [( "name", "tankmodels/T_34_1942 ")]) none).1 ≠
      "unknown_vehicle" ∧
    (get_raw_vehicle_id (some [( "name", "tankmodels/T_34_1942 ")]) none).2 =
      pyStrip (pyLower "tankmodels/T_34_1942 ") ∧
    (get_raw_vehicle_id (some [( "name", "tankmodels/T_34_1942 ")]) none).1 =
      pySplitLast '/' (pyStrip (pyLower "tankmodels/T_34_1942 ")) :=
  ⟨by decide, by decide,
    (C8_canonical_id_derivation (some [( "name", "tankmodels/T_34_1942 ")]) none
      "tankmodels/T_34_1942 " (by decide) (by decide)).1,
    (C8_canonical_id_derivation (some [( "name", "tankmodels/T_34_1942 ")]) none
      "tankmodels/T_34_1942 " (by decide) (by decide)).2.1⟩

/-- C4: once a vehicle id has been resolved and inserted into the in-memory
cache, every later tick that observes the same id returns the cached record
unchanged (its display name and rating) and performs no external lookup for it
for the remainder of the run; the cache only grows (every binding survives
every tick) and entries never expire or change. -/
theorem C4_cache_monotonicity (s : EngineState) (inputs : List TickInput)
    (i : TickInput) (id : String) (nb : String × String)
    (hid : id ≠ "unknown_vehicle")
    (hc : dictGet s.cache id = some nb)
    (hobs : observedId i = id) :
    (∀ k v, dictGet s.cache k = some v → dictGet (runTicks inputs s).cache k = some v) ∧
    dictGet (runTicks inputs s).cache id = some nb ∧
    (tick i (runTicks inputs s)).scraped = false ∧
    (tick i (runTicks inputs s)).vehicle_display = nb.1 ∧
    (tick i (runTicks inputs s)).br = nb.2 ∧
    (tick i (runTicks inputs s)).st.cache = (runTicks inputs s).cache := by
  have hpres : ∀ k v, dictGet s.cache k = some v →
      dictGet (runTicks inputs s).cache k = some v :=
    fun k v hk => runTicks_cache_preserve inputs s k v hk
  have hcF : dictGet (runTicks inputs s).cache id = some nb := hpres id nb hc
  have hres : resolveVehicle (runTicks inputs s).cache (runTicks inputs s).last_vehicle_id
      (observedId i) (get_default_display_name (observedId i)) i.scrape_result =
      ⟨nb.1, nb.2, false, (runTicks inputs s).cache⟩ := by
    rw [hobs]
    exact resolveVehicle_cached _ _ _ _ _ _ hid hcF
  refine ⟨hpres, hcF, ?_, ?_, ?_, ?_⟩
  · rw [tick_scraped_eq, hres]
  · rw [tick_vehicle_display_eq, hres]
  · rw [tick_br_eq, hres]
  · rw [tick_st_cache_eq, hres]

def c4State : EngineState :=
  { cache := [( "t_34_1942", ("T-34-85", "5.8"))], last_vehicle_id := none,
    map_hashes := [], start_time := 0, last_details := "", last_state := "",
    last_vehicle_display := "", last_image_url := "", last_br := "",
    last_map_name := "" }

def c4Input : TickInput :=
  { state_data := some [( "name", "tankmodels/T_34_1942")], indicators_data := none,
    mission_data := none, map_hash := none, scrape_result := (none, none), clock := 7 }

/-- Witness for C4: a tick observing a cached id neither scrapes nor disturbs
the cached record. -/
theorem C4_cache_monotonicity_witness :
    ("t_34_1942" : String) ≠ "unknown_vehicle" ∧
    dictGet c4State.cache "t_34_1942" = some ("T-34-85", "5.8") ∧
    observedId c4Input = "t_34_1942" ∧
    (tick c4Input c4State).scraped = false ∧
    (tick c4Input c4State).vehicle_display = "T-34-85" :=
  ⟨by decide, by decide, by decide,
    (C4_cache_monotonicity c4State [] c4Input "t_34_1942" ("T-34-85", "5.8")
      (by decide) (by decide) (by decide)).2.2.1,
    (C4_cache_monotonicity c4State [] c4Input "t_34_1942" ("T-34-85", "5.8")
      (by decide) (by decide) (by decide)).2.2.2.1⟩

/-- C5: observing an unknown map fingerprint registers it in the mapping table
with the deterministically synthesized placeholder URL on that same tick, and
any later observation of the same fingerprint yields the same reference without
inserting again: after any number of ticks the table holds exactly one entry
for the fingerprint. -/
theorem C5_fingerprint_registration (s : EngineState) (h : String)
    (i j : TickInput) (rest : List TickInput)
    (hne : h ≠ "")
    (habs : dictGet s.map_hashes h = none)
    (hobs : i.map_hash = some h)
    (hj : j.map_hash = some h) :
    (tick i s).map_registered = true ∧
    dictGet (tick i s).st.map_hashes h = some auto_generated_url ∧
    countKey (runTicks rest (tick i s).st).map_hashes h = 1 ∧
    (tick j (runTicks rest (tick i s).st)).map_registered = false ∧
    (tick j (runTicks rest (tick i s).st)).map_value = auto_generated_url := by
  have hms := mapStage_absent s.map_hashes h hne habs
  have hreg : (tick i s).map_registered = true := by
    rw [tick_map_registered_eq, hobs, hms]
  have htab : (tick i s).st.map_hashes = dictSet s.map_hashes h auto_generated_url := by
    rw [tick_st_map_hashes_eq, hobs, hms]
  have hget1 : dictGet (tick i s).st.map_hashes h = some auto_generated_url := by
    rw [htab]
    exact dictGet_dictSet_self _ _ _
  have hcount1 : countKey (tick i s).st.map_hashes h = 1 := by
    rw [htab, countKey_dictSet_new _ habs, countKey_zero_of_dictGet_none habs]
  obtain ⟨hgetF, hcountF⟩ :=
    runTicks_maps_preserve rest (tick i s).st h auto_generated_url hget1
  have hmsF := mapStage_present (runTicks rest (tick i s).st).map_hashes h
    auto_generated_url hne hgetF
  have hauto_ne : auto_generated_url ≠ "" := by decide
  refine ⟨hreg, hget1, hcountF.trans hcount1, ?_, ?_⟩
  · rw [tick_map_registered_eq, hj, hmsF]
  · rw [tick_map_value_eq, hj, hmsF]
    simp [hauto_ne]

def c5State : EngineState :=
  { cache := [], last_vehicle_id := none, map_hashes := [], start_time := 0,
    last_details := "", last_state := "", last_vehicle_display := "",
    last_image_url := "", last_br := "", last_map_name := "" }

def c5Input : TickInput :=
  { state_data := none, indicators_data := none, mission_data := none,
    map_hash := some "ab12cd", scrape_result := (none, none), clock := 3 }

/-- Witness for C5: a fresh fingerprint is registered on its first sighting and
a second tick observing it re-reads the same placeholder without registering. -/
theorem C5_fingerprint_registration_witness :
    ("ab12cd" : String) ≠ "" ∧
    dictGet c5State.map_hashes "ab12cd" = none ∧
    (tick c5Input c5State).map_registered = true ∧
    (tick c5Input (runTicks [] (tick c5Input c5State).st)).map_registered = false ∧
    (tick c5Input (runTicks [] (tick c5Input c5State).st)).map_value =
      auto_generated_url :=
  ⟨by decide, by decide,
    (C5_fingerprint_registration c5State "ab12cd" c5Input c5Input []
      (by decide) (by decide) (by decide) (by decide)).1,
    (C5_fingerprint_registration c5State "ab12cd" c5Input c5Input []
      (by decide) (by decide) (by decide) (by decide)).2.2.2.1,
    (C5_fingerprint_registration c5State "ab12cd" c5Input c5Input []
      (by decide) (by decide) (by decide) (by decide)).2.2.2.2⟩

def c1State : EngineState :=
  { cache := [], last_vehicle_id := none,
    map_hashes := [(HANGAR_HASH, "Not in Mission")], start_time := 0,
    last_details := "", last_state := "", last_vehicle_display := "",
    last_image_url := "", last_br := "", last_map_name := "" }

def c1Input (t : Nat) : TickInput :=
  { state_data := some [( "valid", "1")], indicators_data := none,
    mission_data := none, map_hash := some HANGAR_HASH,
    scrape_result := (none, none), clock := t }

/-- C1 (counterexample): two consecutive hangar ticks at different wall-clock
times; the first publishes, the second freshly computes a PresentationState
that differs from the last published one (its session start epoch moved with
the hangar reset) and yet makes no outbound call, because neither the start
epoch nor the small image key takes part in the comparison tuple. -/
theorem C1_counterexample :
    (tick (c1Input 100) c1State).published = true ∧
    (tick (c1Input 200) (tick (c1Input 100) c1State).st).computed ≠
      (tick (c1Input 100) c1State).computed ∧
    (tick (c1Input 200) (tick (c1Input 100) c1State).st).published = false := by
  decide

/-- C1 (amended): on every tick the engine publishes if and only if the
sextuple (headline, subline, resolved vehicle display name, large image key,
rating text, map display name) differs from the values remembered at the last
publication; the small image key and the session start epoch are excluded from
the comparison (the remembered tuple reuses the current small image key), so a
tick differing only in those never publishes. -/
theorem C1_publish_gate_amended (i : TickInput) (s : EngineState) :
    (tick i s).published = true ↔
      ¬((tick i s).computed.details = s.last_details ∧
        (tick i s).computed.state = s.last_state ∧
        (tick i s).vehicle_display = s.last_vehicle_display ∧
        (tick i s).computed.large_image = s.last_image_url ∧
        (tick i s).br = s.last_br ∧
        (tick i s).map_display = s.last_map_name) := by
  rw [tick_published_eq, tick_computed_eq, tick_vd_comp_eq, tick_br_comp_eq,
    tick_md_comp_eq, payloadOf_details, payloadOf_state, payloadOf_large]
  unfold publishGate
  rw [decide_eq_true_eq]
  apply not_congr
  constructor
  · intro h
    simp only [Prod.mk.injEq] at h
    exact ⟨h.1, h.2.1, h.2.2.1, h.2.2.2.1, h.2.2.2.2.2.1, h.2.2.2.2.2.2⟩
  · rintro ⟨h1, h2, h3, h4, h5, h6⟩
    simp only [Prod.mk.injEq]
    exact ⟨h1, h2, h3, h4, trivial, h5, h6⟩

def c2State : EngineState :=
  { cache := [], last_vehicle_id := some "t_34_1942", map_hashes := [],
    start_time := 0, last_details := "", last_state := "",
    last_vehicle_display := "", last_image_url := "", last_br := "",
    last_map_name := "" }

def c2Input : TickInput :=
  { state_data := some [( "name", "tankmodels/t_34_1942")], indicators_data := none,
    mission_data := none, map_hash := none, scrape_result := (none, none),
    clock := 10 }

/-- C2 (code evaluation at the failing input): the engine state records that
the previous tick already observed the same id t_34_1942 (LAST_VEHICLE_ID)
whose scrape failed (so it is still uncached); on the next tick the code
nevertheless performs the external lookup again (scraped = true), because the
guard raw_vehicle_id != LAST_VEHICLE_ID or raw_vehicle_id not in cache is
vacuously true whenever the id is uncached. The fallback display name and the
not-available rating marker are used, as the claim says. -/
theorem C2_retry_every_tick :
    observedId c2Input = "t_34_1942" ∧
    c2State.last_vehicle_id = some "t_34_1942" ∧
    dictGet c2State.cache "t_34_1942" = none ∧
    (tick c2Input c2State).scraped = true ∧
    (tick c2Input c2State).vehicle_display = "T 34 1942" ∧
    (tick c2Input c2State).br = "N/A" := by
  decide

def c3State : EngineState :=
  { cache := [], last_vehicle_id := none,
    map_hashes := [(HANGAR_HASH, "abandoned_town")], start_time := 0,
    last_details := "", last_state := "", last_vehicle_display := "",
    last_image_url := "", last_br := "", last_map_name := "" }

def c3Input : TickInput :=
  { state_data := some [( "valid", "1")], indicators_data := none,
    mission_data := none, map_hash := some HANGAR_HASH,
    scrape_result := (none, none), clock := 50 }

/-- C3 (counterexample): the fetched fingerprint equals the well-known hangar
fingerprint, but the hash table maps that fingerprint to "abandoned_town", and
the map resolves to "Abandoned Town", not "Hangar" - so the special case does
not apply regardless of the table's contents. -/
theorem C3_counterexample :
    c3Input.map_hash = some HANGAR_HASH ∧
    (tick c3Input c3State).map_display = "Abandoned Town" ∧
    (tick c3Input c3State).map_display ≠ "Hangar" := by
  decide

/-- C3 (amended): whenever the fetched map fingerprint equals the well-known
menu/hangar fingerprint AND the hash table maps that fingerprint to the
literal value "Not in Mission" (as the shipped configuration does), the map
resolves to the fixed logical label "Hangar" and the session start timestamp
is reset to the current clock. -/
theorem C3_hangar_amended (i : TickInput) (s : EngineState)
    (hh : i.map_hash = some HANGAR_HASH)
    (ht : dictGet s.map_hashes HANGAR_HASH = some "Not in Mission") :
    (tick i s).map_display = "Hangar" ∧ (tick i s).st.start_time = i.clock := by
  have hne : HANGAR_HASH ≠ "" := by decide
  have hms := mapStage_present s.map_hashes HANGAR_HASH "Not in Mission" hne ht
  have hval : (mapStage s.map_hashes i.map_hash).value = "Not in Mission" := by
    rw [hh, hms]
    simp
  have hdisp0 : (mapDisplay (mapStage s.map_hashes i.map_hash).value i.map_hash).display =
      "Hangar" := by
    rw [hval, hh]
    decide
  refine ⟨?_, ?_⟩
  · rw [tick_map_display_eq, hdisp0]
  · rw [tick_st_start_eq, hdisp0]
    simp

def c3wState : EngineState :=
  { cache := [], last_vehicle_id := none,
    map_hashes := [(HANGAR_HASH, "Not in Mission")], start_time := 0,
    last_details := "", last_state := "", last_vehicle_display := "",
    last_image_url := "", last_br := "", last_map_name := "" }

def c3wInput : TickInput :=
  { state_data := some [( "valid", "1")], indicators_data := none,
    mission_data := none, map_hash := some HANGAR_HASH,
    scrape_result := (none, none), clock := 9 }

/-- Witness for the amended C3 at the shipped table binding. -/
theorem C3_hangar_amended_witness :
    c3wInput.map_hash = some HANGAR_HASH ∧
    dictGet c3wState.map_hashes HANGAR_HASH = some "Not in Mission" ∧
    (tick c3wInput c3wState).map_display = "Hangar" ∧
    (tick c3wInput c3wState).st.start_time = 9 :=
  ⟨by decide, by decide,
    (C3_hangar_amended c3wInput c3wState (by decide) (by decide)).1,
    (C3_hangar_amended c3wInput c3wState (by decide) (by decide)).2⟩

theorem isEmpty_false_of_ne_nil {α : Type} {l : List α} (h : l ≠ []) :
    l.isEmpty = false := by
  cases l with
  | nil => exact absurd rfl h
  | cons a t => rfl

def c6Mission : MDict :=
  [( "status", JVal.jstr "running"), ( "type", JVal.jstr "air_battle")]

/-- C6 (counterexample): every condition named by the claim holds (state data
present, map display "Abandoned Town" which is not "Hangar", mission status
running, unfiltered id containing tankmodels/, vehicle display "T-34"), yet
the classifier returns the Air Battle headline, because the mission's own
reported type (here air_battle) takes precedence over the vehicle-prefix
inference. -/
theorem C6_counterexample :
    dictGet c6Mission "status" = some (JVal.jstr "running") ∧
    hasSub "tankmodels/" "tankmodels/t_34" = true ∧
    get_status_message (some [( "name", "tankmodels/t_34")]) (some c6Mission)
      "T-34" "Abandoned Town" "tankmodels/t_34" =
      ("In Air Battle on Abandoned Town", "Driving a T-34") ∧
    get_status_message (some [( "name", "tankmodels/t_34")]) (some c6Mission)
      "T-34" "Abandoned Town" "tankmodels/t_34" ≠
      ("In Ground Battle on Abandoned Town", "Driving a T-34") := by
  decide

/-- C6 (amended): for a tick where state data is present, the mission status is
running, the mission's reported type is absent or the generic "mission", the
unfiltered vehicle id contains "tankmodels/", the resolved vehicle display name
is "T-34", and the map display name is "Abandoned Town", the classifier returns
headline "In Ground Battle on Abandoned Town" and subline "Driving a T-34". -/
theorem C6_ground_battle_amended (sd : StrDict) (md : MDict) (u : String)
    (hsd : sd ≠ [])
    (hrun : dictGet md "status" = some (JVal.jstr "running"))
    (htype : dictGet md "type" = none ∨ dictGet md "type" = some (JVal.jstr "mission"))
    (htank : hasSub "tankmodels/" u = true) :
    get_status_message (some sd) (some md) "T-34" "Abandoned Town" u =
      ("In Ground Battle on Abandoned Town", "Driving a T-34") := by
  have hmd : md ≠ [] := dictGet_some_ne_nil hrun
  have hstate : truthyOptList (some sd) = true := truthy_some_of_ne_nil hsd
  have hrunning : is_status_running_of (some md) = true := by
    simp only [is_status_running_of, isEmpty_false_of_ne_nil hmd, Bool.not_false, hrun,
      Bool.true_and]
    decide
  have hin : is_in_mission_of (some md) = true := by
    rw [is_in_mission_of, hrunning, Bool.true_or]
  have hu : u ≠ "" := by
    intro he
    rw [he] at htank
    exact absurd htank (by decide)
  cases htype with
  | inl h0 =>
    simp [get_status_message, hstate, hin, optMGet, h0, htank, hu, jTruthyOpt,
      jStrVal, jTruthy]
    decide
  | inr h1 =>
    simp [get_status_message, hstate, hin, optMGet, h1, htank, hu, jTruthyOpt,
      jStrVal, jTruthy]
    decide

/-- Witness for the amended C6 at a concrete running ground-battle tick. -/
theorem C6_ground_battle_amended_witness :
    (([( "name", "tankmodels/t_34")] : StrDict) ≠ []) ∧
    dictGet [( "status", JVal.jstr "running")] "status" = some (JVal.jstr "running") ∧
    get_status_message (some [( "name", "tankmodels/t_34")])
      (some [( "status", JVal.jstr "running")]) "T-34" "Abandoned Town"
      "tankmodels/t_34" =
      ("In Ground Battle on Abandoned Town", "Driving a T-34") :=
  ⟨by decide, by decide,
    C6_ground_battle_amended [( "name", "tankmodels/t_34")]
      [( "status", JVal.jstr "running")] "tankmodels/t_34"
      (by decide) (by decide) (Or.inl (by decide)) (by decide)⟩

end WTRPC
